import Mathlib

/-!
Verification of the pose-editing task (`CVPoseTask`) and the content layer
(`ContentLayer`) of the dpo-voyager repository.  The TypeScript source is
shallowly embedded: three.js vector / quaternion / 4x4-matrix operations are
translated entry by entry, JavaScript numbers are idealised as real numbers,
and the task's mutable fields become an explicit state record threaded through
`onPointer` and `tick`.
-/

namespace Voyager

/-- A 3-component vector, as `THREE.Vector3`. -/
@[ext]
structure Vec3 where
  x : ℝ
  y : ℝ
  z : ℝ


/-- A quaternion, as `THREE.Quaternion` (components x, y, z, w). -/
@[ext]
structure Quat where
  x : ℝ
  y : ℝ
  z : ℝ
  w : ℝ


/-- Squared norm of a quaternion. -/
def Quat.normSq (q : Quat) : ℝ := q.x ^ 2 + q.y ^ 2 + q.z ^ 2 + q.w ^ 2

/-- The identity quaternion (no rotation). -/
def Quat.one : Quat := ⟨0, 0, 0, 1⟩

/-- Embeds `THREE.Vector3.applyQuaternion`: rotate the vector by the quaternion,
computing `q * v * q⁻¹` with the inverse taken as the conjugate (the source
assumes a unit quaternion). Translated line by line from three.js. -/
def Vec3.applyQuaternion (v : Vec3) (q : Quat) : Vec3 :=
  let ix := q.w * v.x + q.y * v.z - q.z * v.y
  let iy := q.w * v.y + q.z * v.x - q.x * v.z
  let iz := q.w * v.z + q.x * v.y - q.y * v.x
  let iw := -q.x * v.x - q.y * v.y - q.z * v.z
  { x := ix * q.w + iw * -q.x + iy * -q.z - iz * -q.y
    y := iy * q.w + iw * -q.y + iz * -q.x - ix * -q.z
    z := iz * q.w + iw * -q.z + ix * -q.y - iy * -q.x }

/-- Embeds `THREE.Quaternion.setFromAxisAngle`: quaternion for a rotation of `angle`
radians about the (assumed normalised) `axis`. -/
noncomputable def Quat.setFromAxisAngle (axis : Vec3) (angle : ℝ) : Quat :=
  let s := Real.sin (angle / 2)
  { x := axis.x * s, y := axis.y * s, z := axis.z * s, w := Real.cos (angle / 2) }

/-- A 4x4 matrix, as `THREE.Matrix4`; field `mij` is row `i`, column `j`
(three.js stores these column-major in a flat array). -/
@[ext]
structure Mat4 where
  m11 : ℝ
  m12 : ℝ
  m13 : ℝ
  m14 : ℝ
  m21 : ℝ
  m22 : ℝ
  m23 : ℝ
  m24 : ℝ
  m31 : ℝ
  m32 : ℝ
  m33 : ℝ
  m34 : ℝ
  m41 : ℝ
  m42 : ℝ
  m43 : ℝ
  m44 : ℝ


/-- Embeds `THREE.Matrix4.identity`. -/
def Mat4.identity : Mat4 :=
  ⟨1, 0, 0, 0,
   0, 1, 0, 0,
   0, 0, 1, 0,
   0, 0, 0, 1⟩

/-- Embeds `THREE.Matrix4.multiply`: standard matrix product `a * b`
(`a.multiply(b)` sets `a` to `a * b`). -/
def Mat4.mul (a b : Mat4) : Mat4 where
  m11 := a.m11 * b.m11 + a.m12 * b.m21 + a.m13 * b.m31 + a.m14 * b.m41
  m12 := a.m11 * b.m12 + a.m12 * b.m22 + a.m13 * b.m32 + a.m14 * b.m42
  m13 := a.m11 * b.m13 + a.m12 * b.m23 + a.m13 * b.m33 + a.m14 * b.m43
  m14 := a.m11 * b.m14 + a.m12 * b.m24 + a.m13 * b.m34 + a.m14 * b.m44
  m21 := a.m21 * b.m11 + a.m22 * b.m21 + a.m23 * b.m31 + a.m24 * b.m41
  m22 := a.m21 * b.m12 + a.m22 * b.m22 + a.m23 * b.m32 + a.m24 * b.m42
  m23 := a.m21 * b.m13 + a.m22 * b.m23 + a.m23 * b.m33 + a.m24 * b.m43
  m24 := a.m21 * b.m14 + a.m22 * b.m24 + a.m23 * b.m34 + a.m24 * b.m44
  m31 := a.m31 * b.m11 + a.m32 * b.m21 + a.m33 * b.m31 + a.m34 * b.m41
  m32 := a.m31 * b.m12 + a.m32 * b.m22 + a.m33 * b.m32 + a.m34 * b.m42
  m33 := a.m31 * b.m13 + a.m32 * b.m23 + a.m33 * b.m33 + a.m34 * b.m43
  m34 := a.m31 * b.m14 + a.m32 * b.m24 + a.m33 * b.m34 + a.m34 * b.m44
  m41 := a.m41 * b.m11 + a.m42 * b.m21 + a.m43 * b.m31 + a.m44 * b.m41
  m42 := a.m41 * b.m12 + a.m42 * b.m22 + a.m43 * b.m32 + a.m44 * b.m42
  m43 := a.m41 * b.m13 + a.m42 * b.m23 + a.m43 * b.m33 + a.m44 * b.m43
  m44 := a.m41 * b.m14 + a.m42 * b.m24 + a.m43 * b.m34 + a.m44 * b.m44

/-- Embeds `THREE.Matrix4.setPosition`: overwrite the translation column with `v`. -/
def Mat4.setPosition (m : Mat4) (v : Vec3) : Mat4 :=
  { m with m14 := v.x, m24 := v.y, m34 := v.z }

/-- Embeds `THREE.Matrix4.makeRotationFromQuaternion`: the rotation matrix of a unit
quaternion, zero translation, unit scale. Entries translated from three.js
(`compose` with zero position and unit scale). -/
def Mat4.makeRotationFromQuaternion (q : Quat) : Mat4 :=
  let x2 := q.x + q.x
  let y2 := q.y + q.y
  let z2 := q.z + q.z
  let xx := q.x * x2
  let xy := q.x * y2
  let xz := q.x * z2
  let yy := q.y * y2
  let yz := q.y * z2
  let zz := q.z * z2
  let wx := q.w * x2
  let wy := q.w * y2
  let wz := q.w * z2
  ⟨1 - (yy + zz), xy - wz,        xz + wy,        0,
   xy + wz,       1 - (xx + zz),  yz - wx,        0,
   xz - wy,       yz + wx,        1 - (xx + yy),  0,
   0,             0,              0,              1⟩

/-- Modelled from the spec: a pure rotation matrix of `angle` radians about the
unit `axis` (the standard axis-angle rotation matrix, Rodrigues form), used as
the specification-side meaning of "build a pure-rotation matrix from
axis+angle". -/
noncomputable def rotationAboutAxis (a : Vec3) (angle : ℝ) : Mat4 :=
  let c := Real.cos angle
  let s := Real.sin angle
  let t := 1 - c
  ⟨c + a.x ^ 2 * t,       a.x * a.y * t - a.z * s, a.x * a.z * t + a.y * s, 0,
   a.y * a.x * t + a.z * s, c + a.y ^ 2 * t,       a.y * a.z * t - a.x * s, 0,
   a.z * a.x * t - a.y * s, a.z * a.y * t + a.x * s, c + a.z ^ 2 * t,       0,
   0,                     0,                       0,                       1⟩

/-- Modelled from the spec: a pure translation matrix displacing by `v`
("build a pure-translation matrix from this vector"). -/
def translationMatrix (v : Vec3) : Mat4 :=
  ⟨1, 0, 0, v.x,
   0, 1, 0, v.y,
   0, 0, 1, v.z,
   0, 0, 0, 1⟩

/-- The enum `EPoseManipMode` from `CVPoseTask`. -/
inductive EPoseManipMode where
  | Off
  | Translate
  | Rotate
deriving DecidableEq

/-- The camera of a viewport. `orientation` models the rotation quaternion
obtained by `camera.matrixWorld.decompose` in `tick`; `size` is the
orthographic camera's size, `isOrthographicCamera` the three.js type flag. -/
structure Camera where
  isOrthographicCamera : Bool
  size : ℝ
  orientation : Quat

/-- A viewport (`Viewport` from ff/three): the camera it renders with (absent
when none is assigned) and its pixel height. -/
structure Viewport where
  camera : Option Camera
  height : ℝ

/-- Modelled from the spec: a model component (`CVModel2`, not part of the
excerpt). Its pose is its local matrix `object3D.matrix`; per the spec,
`setFromMatrix` writes "the resulting matrix back as the model's pose". -/
structure Model where
  matrix : Mat4

/-- Modelled from the spec: `CVModel2.setFromMatrix` stores the given matrix
as the model's pose. -/
def Model.setFromMatrix (m : Mat4) : Model := ⟨m⟩

/-- A scene node (`NVNode`): it may or may not carry a model component. -/
structure NVNode where
  model : Option Model

/-- The mutable fields of `CVPoseTask` relevant to pointer handling and
ticking: the active-task flag, the `mode` input, `activeModel`, `_viewport`,
`_deltaX` and `_deltaY`. -/
structure PoseTaskState where
  isActiveTask : Bool
  mode : EPoseManipMode
  activeModel : Option Model
  viewport : Option Viewport
  deltaX : ℝ
  deltaY : ℝ

/-- Pointer event types the task subscribes to. -/
inductive PEventType where
  | down
  | up
  | move
deriving DecidableEq

/-- A pointer event (`IPointerEvent`): its type, the original event's button
mask and modifier keys, the pointer movement, the source viewport, and the
propagation flag that handlers may set. -/
structure PEvent where
  type : PEventType
  buttons : ℕ
  ctrlKey : Bool
  shiftKey : Bool
  movementX : ℝ
  movementY : ℝ
  viewport : Viewport
  stopPropagation : Bool

/-- Embeds `CVPoseTask.onPointer`, returning the updated task state together with the
event's resulting `stopPropagation` flag. -/
noncomputable def onPointer (s : PoseTaskState) (e : PEvent) : PoseTaskState × Bool :=
  if s.mode = EPoseManipMode.Off ∨ s.activeModel.isNone then
    (s, e.stopPropagation)
  else if e.buttons = 1 then
    if e.type = PEventType.move then
      let speed : ℝ := if e.ctrlKey then 0.1 else if e.shiftKey then 10 else 1
      ({ s with
          deltaX := s.deltaX + e.movementX * speed
          deltaY := s.deltaY + e.movementY * speed
          viewport := some e.viewport },
        true)
    else
      (s, e.stopPropagation)
  else
    (s, e.stopPropagation)

/-- The delta transform `_mat4` computed by the two mode branches in
`CVPoseTask.tick`, before it is multiplied onto the model matrix. -/
noncomputable def deltaTransform (mode : EPoseManipMode) (camera : Camera)
    (viewportHeight deltaX deltaY : ℝ) : Mat4 :=
  if mode = EPoseManipMode.Rotate then
    let angle := (deltaX - deltaY) * 0.002
    let axis := (Vec3.mk 0 0 (-1)).applyQuaternion camera.orientation
    Mat4.makeRotationFromQuaternion (Quat.setFromAxisAngle axis angle)
  else
    let f := camera.size / viewportHeight
    let axis := (Vec3.mk (deltaX * f) (-deltaY * f) 0).applyQuaternion camera.orientation
    Mat4.identity.setPosition axis

/-- Embeds `CVPoseTask.tick`, returning `none` where the JavaScript would fail on a
null `_viewport` dereference (unreachable from the initial state, since a
non-zero delta is only ever set together with a viewport), and otherwise the
updated state with the source's boolean return value. -/
noncomputable def tick (s : PoseTaskState) : Option (PoseTaskState × Bool) :=
  if ¬ s.isActiveTask then
    some (s, false)
  else if s.mode = EPoseManipMode.Off ∨ s.activeModel.isNone then
    some (s, false)
  else
    match s.activeModel with
    | none => some (s, false)
    | some model =>
      let deltaX := s.deltaX
      let deltaY := s.deltaY
      if deltaX = 0 ∧ deltaY = 0 then
        some (s, false)
      else
        let s := { s with deltaX := 0, deltaY := 0 }
        match s.viewport with
        | none => none
        | some vp =>
          match vp.camera with
          | none => some (s, false)
          | some camera =>
            if ¬ camera.isOrthographicCamera then
              some (s, false)
            else
              let mat := deltaTransform s.mode camera vp.height deltaX deltaY
              let mat := mat.mul model.matrix
              some ({ s with activeModel := some (Model.setFromMatrix mat) }, true)

/-- Embeds `CVPoseTask.onActiveNode`: adopt the next node's model (null when the node
is absent or has no model). The selection and bounding-box side effects act on
framework state outside this embedding and are not represented. -/
def onActiveNode (s : PoseTaskState) (next : Option NVNode) : PoseTaskState :=
  { s with activeModel := next.bind NVNode.model }

/-- The enum `EQuadViewLayout` from ff/scene `RenderQuadView`; the task only ever sets
`Single` and `Quad`. -/
inductive EQuadViewLayout where
  | Single
  | Quad
deriving DecidableEq

/-- A render view held by the renderer. `isQuadView` models the
`view instanceof RenderQuadView` test; `layout` is only meaningful for quad
views. -/
structure RenderView where
  isQuadView : Bool
  layout : EQuadViewLayout

/-- Modelled from the spec: the framework state `activateTask` and
`deactivateTask` act on — whether the task's pointer handler is subscribed to
the system's pointer-down/up/move notifications, whether active-node /
active-document changes are being observed, and the renderer's views. -/
structure SystemState where
  pointerSubscribed : Bool
  observing : Bool
  views : List RenderView

/-- Embeds `CVPoseTask.activateTask`: subscribe `onPointer` to the system's pointer
events, switch every `RenderQuadView` to the `Quad` layout and start
observing. -/
def activateTask (sys : SystemState) : SystemState :=
  { sys with
      pointerSubscribed := true
      observing := true
      views := sys.views.map fun v =>
        if v.isQuadView then { v with layout := EQuadViewLayout.Quad } else v }

/-- Embeds `CVPoseTask.deactivateTask`: stop observing, switch every `RenderQuadView`
back to the `Single` layout and unsubscribe `onPointer` from the system's
pointer events. -/
def deactivateTask (sys : SystemState) : SystemState :=
  { sys with
      pointerSubscribed := false
      observing := false
      views := sys.views.map fun v =>
        if v.isQuadView then { v with layout := EQuadViewLayout.Single } else v }

/-- Modelled from the spec: the system delivers a pointer event to the task's
handler only while the handler is subscribed; otherwise the task state and the
event are untouched. -/
noncomputable def dispatchPointer (sys : SystemState) (s : PoseTaskState)
    (e : PEvent) : PoseTaskState × Bool :=
  if sys.pointerSubscribed then onPointer s e else (s, e.stopPropagation)

/-- The canvas element owned by `ContentLayer`, with its measured client
dimensions. -/
structure Canvas where
  clientWidth : ℕ
  clientHeight : ℕ

/-- The view `RenderQuadView` as resized by `ContentLayer`: the dimensions passed to
its last `resize` call. -/
structure SizedView where
  width : ℕ
  height : ℕ

/-- Embeds `RenderQuadView.resize` as called from `ContentLayer.onResize`. -/
def SizedView.resize (_ : SizedView) (w h : ℕ) : SizedView := ⟨w, h⟩

/-- The fields of `ContentLayer` that `onResize` touches: the canvas and the
view (null before `connected` and after `disconnected`). -/
structure ContentLayerState where
  canvas : Canvas
  view : Option SizedView

/-- The detail payload of the custom `sv-resize` event (`IResizeEvent`). -/
structure ResizeDetail where
  width : ℕ
  height : ℕ

/-- Embeds `ContentLayer.onResize`: measure the canvas, resize the view if one
exists, and dispatch the `sv-resize` event carrying the measured
dimensions. -/
def onResize (s : ContentLayerState) : ContentLayerState × ResizeDetail :=
  let width := s.canvas.clientWidth
  let height := s.canvas.clientHeight
  ({ s with view := s.view.map fun v => v.resize width height },
    ⟨width, height⟩)

/-- The per-event speed multiplier of `onPointer` (ctrl = 0.1, shift = 10). -/
noncomputable def speed (e : PEvent) : ℝ :=
  if e.ctrlKey then 0.1 else if e.shiftKey then 10 else 1

/-- Run `onPointer` over a list of events, keeping the task state. -/
noncomputable def runPointer (s : PoseTaskState) (es : List PEvent) : PoseTaskState :=
  es.foldl (fun s e => (onPointer s e).1) s

/-- The sum of `movementX * speed` over the pointer-move events of a list. -/
noncomputable def dragSumX (es : List PEvent) : ℝ :=
  (es.map fun e => if e.type = PEventType.move then e.movementX * speed e else 0).sum

/-- The sum of `movementY * speed` over the pointer-move events of a list. -/
noncomputable def dragSumY (es : List PEvent) : ℝ :=
  (es.map fun e => if e.type = PEventType.move then e.movementY * speed e else 0).sum

/-- The handler `onPointer` returns early when the mode is `Off` or no model is active. -/
theorem onPointer_guard (s : PoseTaskState) (e : PEvent)
    (h : s.mode = EPoseManipMode.Off ∨ s.activeModel = none) :
    onPointer s e = (s, e.stopPropagation) := by
  unfold onPointer
  rcases h with h | h <;> simp [h]

/-- The handler `onPointer` on a primary-button move event under an admitting guard:
accumulate the deltas, record the viewport, consume the event. -/
theorem onPointer_move (s : PoseTaskState) (e : PEvent)
    (hmode : s.mode ≠ EPoseManipMode.Off) (hm : s.activeModel ≠ none)
    (hb : e.buttons = 1) (ht : e.type = PEventType.move) :
    onPointer s e =
      ({ s with
          deltaX := s.deltaX + e.movementX * speed e
          deltaY := s.deltaY + e.movementY * speed e
          viewport := some e.viewport }, true) := by
  unfold onPointer speed
  simp [hmode, hm, hb, ht, Option.isNone_iff_eq_none]

/-- The handler `onPointer` ignores events that are not primary-button moves. -/
theorem onPointer_other (s : PoseTaskState) (e : PEvent)
    (h : ¬ e.buttons = 1 ∨ ¬ e.type = PEventType.move) :
    onPointer s e = (s, e.stopPropagation) := by
  unfold onPointer
  rcases h with h | h <;> [skip; rcases em (e.buttons = 1) with hb | hb] <;>
    split <;> simp [h, *]

/-- The handler `onPointer` never changes the active flag, the mode or the active model. -/
theorem onPointer_preserves (s : PoseTaskState) (e : PEvent) :
    (onPointer s e).1.isActiveTask = s.isActiveTask ∧
    (onPointer s e).1.mode = s.mode ∧
    (onPointer s e).1.activeModel = s.activeModel := by
  unfold onPointer
  split
  · exact ⟨rfl, rfl, rfl⟩
  · split
    · split
      · exact ⟨rfl, rfl, rfl⟩
      · exact ⟨rfl, rfl, rfl⟩
    · exact ⟨rfl, rfl, rfl⟩

/-- Rotating a vector by a quaternion scales its squared length by the square
of the quaternion's squared norm; in particular a unit quaternion preserves
lengths. -/
theorem applyQuaternion_normSq (v : Vec3) (q : Quat) :
    (v.applyQuaternion q).x ^ 2 + (v.applyQuaternion q).y ^ 2 +
      (v.applyQuaternion q).z ^ 2 =
    q.normSq ^ 2 * (v.x ^ 2 + v.y ^ 2 + v.z ^ 2) := by
  simp only [Vec3.applyQuaternion, Quat.normSq]
  ring

/-- For a unit axis, the matrix three.js builds from the axis-angle quaternion
is exactly the axis-angle (Rodrigues) rotation matrix. -/
theorem makeRotation_setFromAxisAngle (a : Vec3) (θ : ℝ)
    (h : a.x ^ 2 + a.y ^ 2 + a.z ^ 2 = 1) :
    Mat4.makeRotationFromQuaternion (Quat.setFromAxisAngle a θ) =
      rotationAboutAxis a θ := by
  have pyth := Real.sin_sq_add_cos_sq (θ / 2)
  have hs : Real.sin θ = 2 * Real.sin (θ / 2) * Real.cos (θ / 2) := by
    nth_rewrite 1 [show θ = 2 * (θ / 2) by ring]
    exact Real.sin_two_mul _
  have hc : Real.cos θ = 1 - 2 * Real.sin (θ / 2) ^ 2 := by
    nth_rewrite 1 [show θ = 2 * (θ / 2) by ring]
    rw [Real.cos_two_mul]
    linear_combination 2 * pyth
  simp only [Mat4.makeRotationFromQuaternion, Quat.setFromAxisAngle,
    rotationAboutAxis]
  rw [hs, hc]
  simp only [Mat4.mk.injEq]
  refine ⟨?_, ?_, ?_, ?_, ?_, ?_, ?_, ?_, ?_, ?_, ?_, ?_, ?_, ?_, ?_, ?_⟩ <;> first
    | trivial
    | ring1
    | linear_combination (-2 * Real.sin (θ / 2) ^ 2) * h

/-- The update `tick` returns early when the task is not the active task. -/
theorem tick_inactive (s : PoseTaskState) (h : s.isActiveTask = false) :
    tick s = some (s, false) := by
  unfold tick
  simp [h]

/-- The update `tick` returns early when the mode is `Off` or no model is active. -/
theorem tick_guard (s : PoseTaskState)
    (h : s.mode = EPoseManipMode.Off ∨ s.activeModel = none) :
    tick s = some (s, false) := by
  unfold tick
  rcases em (s.isActiveTask = true) with hact | hact
  · rcases h with h | h <;> simp [hact, h]
  · simp [eq_false_of_ne_true hact]

/-- The update `tick` returns early when the accumulated delta is zero. -/
theorem tick_zero_delta (s : PoseTaskState)
    (hδ : s.deltaX = 0 ∧ s.deltaY = 0) :
    tick s = some (s, false) := by
  unfold tick
  rcases em (s.isActiveTask = true) with hact | hact
  · rcases em (s.mode = EPoseManipMode.Off) with hoff | hoff
    · simp [hact, hoff]
    · rcases hmm : s.activeModel with _ | m
      · simp [hact, hmm]
      · simp [hact, hoff, hmm, hδ]
  · simp [eq_false_of_ne_true hact]

/-- The update `tick` under all admitting guards: drain the delta, build the delta
transform, premultiply it onto the model's matrix and store the result. -/
theorem tick_apply (s : PoseTaskState) (m : Model) (vp : Viewport) (cam : Camera)
    (hact : s.isActiveTask = true) (hmode : s.mode ≠ EPoseManipMode.Off)
    (hm : s.activeModel = some m) (hδ : ¬ (s.deltaX = 0 ∧ s.deltaY = 0))
    (hvp : s.viewport = some vp) (hcam : vp.camera = some cam)
    (horth : cam.isOrthographicCamera = true) :
    tick s = some ({ s with
        deltaX := 0
        deltaY := 0
        activeModel := some (Model.setFromMatrix
          ((deltaTransform s.mode cam vp.height s.deltaX s.deltaY).mul m.matrix)) },
      true) := by
  unfold tick
  simp [hact, hmode, hm, hδ, hvp, hcam, horth]

/-- The update `tick` when the recorded viewport has no camera or a non-orthographic
camera: the delta is still drained, but nothing else changes. -/
theorem tick_bad_camera (s : PoseTaskState) (vp : Viewport)
    (hact : s.isActiveTask = true) (hmode : s.mode ≠ EPoseManipMode.Off)
    (hm : s.activeModel ≠ none) (hδ : ¬ (s.deltaX = 0 ∧ s.deltaY = 0))
    (hvp : s.viewport = some vp)
    (hcam : vp.camera = none ∨ ∀ cam, vp.camera = some cam → cam.isOrthographicCamera = false) :
    tick s = some ({ s with deltaX := 0, deltaY := 0 }, false) := by
  unfold tick
  rcases hmm : s.activeModel with _ | m
  · exact absurd hmm hm
  · rcases hcam with hcam | hcam
    · simp [hact, hmode, hmm, hδ, hvp, hcam]
    · rcases hc : vp.camera with _ | cam
      · simp [hact, hmode, hmm, hδ, hvp, hc]
      · simp [hact, hmode, hmm, hδ, hvp, hc, hcam cam hc]

/-- Claim C1: in Rotate mode, on every tick where the task is active, a model
is active, the accumulated delta is non-zero and the source viewport's camera
is orthographic (with the unit orientation quaternion obtained from the
camera's world matrix), the applied delta transform is a pure rotation of
angle `(deltaX - deltaY) * 0.002` radians about the axis obtained by rotating
`(0, 0, -1)` by the camera's decomposed world orientation quaternion. -/
theorem C1_rotate_pure_rotation (s : PoseTaskState) (m : Model) (vp : Viewport)
    (cam : Camera)
    (hact : s.isActiveTask = true) (hmode : s.mode = EPoseManipMode.Rotate)
    (hm : s.activeModel = some m) (hδ : ¬ (s.deltaX = 0 ∧ s.deltaY = 0))
    (hvp : s.viewport = some vp) (hcam : vp.camera = some cam)
    (horth : cam.isOrthographicCamera = true)
    (hunit : cam.orientation.normSq = 1) :
    tick s = some ({ s with
        deltaX := 0
        deltaY := 0
        activeModel := some (Model.setFromMatrix
          ((rotationAboutAxis ((Vec3.mk 0 0 (-1)).applyQuaternion cam.orientation)
              ((s.deltaX - s.deltaY) * 0.002)).mul m.matrix)) }, true) := by
  have haxis : ((Vec3.mk 0 0 (-1)).applyQuaternion cam.orientation).x ^ 2 +
      ((Vec3.mk 0 0 (-1)).applyQuaternion cam.orientation).y ^ 2 +
      ((Vec3.mk 0 0 (-1)).applyQuaternion cam.orientation).z ^ 2 = 1 := by
    rw [applyQuaternion_normSq, hunit]
    norm_num
  have hδt : deltaTransform s.mode cam vp.height s.deltaX s.deltaY =
      rotationAboutAxis ((Vec3.mk 0 0 (-1)).applyQuaternion cam.orientation)
        ((s.deltaX - s.deltaY) * 0.002) := by
    rw [hmode]
    unfold deltaTransform
    simp only [if_pos]
    exact makeRotation_setFromAxisAngle _ _ haxis
  rw [tick_apply s m vp cam hact (by simp [hmode]) hm hδ hvp hcam horth, hδt]

/-- Claim C1, concrete instance: deltaX = 100, deltaY = 0 with an identity
camera orientation yields a rotation of 0.2 radians about `(0, 0, -1)`. -/
theorem C1_rotate_pure_rotation_witness :
    tick { isActiveTask := true, mode := EPoseManipMode.Rotate,
           activeModel := some ⟨Mat4.identity⟩,
           viewport := some ⟨some ⟨true, 10, ⟨0, 0, 0, 1⟩⟩, 500⟩,
           deltaX := 100, deltaY := 0 } =
      some ({ isActiveTask := true, mode := EPoseManipMode.Rotate,
              activeModel := some (Model.setFromMatrix
                ((rotationAboutAxis (Vec3.mk 0 0 (-1)) 0.2).mul Mat4.identity)),
              viewport := some ⟨some ⟨true, 10, ⟨0, 0, 0, 1⟩⟩, 500⟩,
              deltaX := 0, deltaY := 0 }, true) := by
  rw [C1_rotate_pure_rotation _ ⟨Mat4.identity⟩ ⟨some ⟨true, 10, ⟨0, 0, 0, 1⟩⟩, 500⟩
        ⟨true, 10, ⟨0, 0, 0, 1⟩⟩ rfl rfl rfl (by norm_num) rfl rfl rfl
        (by norm_num [Quat.normSq])]
  norm_num [Vec3.applyQuaternion]

/-- Claim C2: in Translate mode, on every tick where the task is active, a
model is active, the accumulated delta is non-zero and the source viewport's
camera is orthographic, the applied delta transform is a pure translation by
the vector `(deltaX * f, -deltaY * f, 0)` rotated by the camera's world
orientation, where `f = camera.size / viewport.height`. -/
theorem C2_translate_pure_translation (s : PoseTaskState) (m : Model)
    (vp : Viewport) (cam : Camera)
    (hact : s.isActiveTask = true) (hmode : s.mode = EPoseManipMode.Translate)
    (hm : s.activeModel = some m) (hδ : ¬ (s.deltaX = 0 ∧ s.deltaY = 0))
    (hvp : s.viewport = some vp) (hcam : vp.camera = some cam)
    (horth : cam.isOrthographicCamera = true) :
    tick s = some ({ s with
        deltaX := 0
        deltaY := 0
        activeModel := some (Model.setFromMatrix
          ((translationMatrix
              ((Vec3.mk (s.deltaX * (cam.size / vp.height))
                  (-s.deltaY * (cam.size / vp.height))
                  0).applyQuaternion cam.orientation)).mul m.matrix)) }, true) := by
  have hδt : deltaTransform s.mode cam vp.height s.deltaX s.deltaY =
      translationMatrix
        ((Vec3.mk (s.deltaX * (cam.size / vp.height))
            (-s.deltaY * (cam.size / vp.height)) 0).applyQuaternion
          cam.orientation) := by
    rw [hmode]
    unfold deltaTransform
    simp only [if_neg (show ¬ (EPoseManipMode.Translate = EPoseManipMode.Rotate) by decide)]
    rfl
  rw [tick_apply s m vp cam hact (by simp [hmode]) hm hδ hvp hcam horth, hδt]

/-- Claim C2, concrete instance: camera size 10, viewport height 500,
deltaX = 50, deltaY = 0 with identity orientation yields world displacement
`(1.0, 0, 0)`. -/
theorem C2_translate_pure_translation_witness :
    tick { isActiveTask := true, mode := EPoseManipMode.Translate,
           activeModel := some ⟨Mat4.identity⟩,
           viewport := some ⟨some ⟨true, 10, ⟨0, 0, 0, 1⟩⟩, 500⟩,
           deltaX := 50, deltaY := 0 } =
      some ({ isActiveTask := true, mode := EPoseManipMode.Translate,
              activeModel := some (Model.setFromMatrix
                ((translationMatrix (Vec3.mk 1 0 0)).mul Mat4.identity)),
              viewport := some ⟨some ⟨true, 10, ⟨0, 0, 0, 1⟩⟩, 500⟩,
              deltaX := 0, deltaY := 0 }, true) := by
  rw [C2_translate_pure_translation _ ⟨Mat4.identity⟩
        ⟨some ⟨true, 10, ⟨0, 0, 0, 1⟩⟩, 500⟩ ⟨true, 10, ⟨0, 0, 0, 1⟩⟩
        rfl rfl rfl (by norm_num) rfl rfl rfl]
  norm_num [Vec3.applyQuaternion]

/-- Claim C3: whenever a tick applies a pose edit, the matrix written back as
the model's pose equals the delta transform multiplied on the left of the
model's current local matrix (new = delta × model.object3D.matrix). -/
theorem C3_delta_premultiplied (s s' : PoseTaskState)
    (h : tick s = some (s', true)) :
    ∃ m vp cam, s.activeModel = some m ∧ s.viewport = some vp ∧
      vp.camera = some cam ∧
      s'.activeModel = some (Model.setFromMatrix
        ((deltaTransform s.mode cam vp.height s.deltaX s.deltaY).mul
          m.matrix)) := by
  unfold tick at h
  split at h
  next => simp at h
  next hactive =>
    split at h
    next => simp at h
    next hguard =>
      split at h
      next hmodel => simp at h
      next model hmodel =>
        dsimp only at h
        split at h
        next => simp at h
        next hδ =>
          split at h
          next hvp => cases h
          next vp hvp =>
            split at h
            next hcam => simp at h
            next cam hcam =>
              split at h
              next => simp at h
              next horth =>
                rw [Option.some.injEq, Prod.mk.injEq] at h
                exact ⟨model, vp, cam, hmodel, hvp, hcam, by rw [← h.1]⟩

/-- Claim C3, concrete instance at a translate-mode state. -/
theorem C3_delta_premultiplied_witness :
    ∃ m vp cam,
      (PoseTaskState.mk true EPoseManipMode.Translate (some ⟨Mat4.identity⟩)
          (some ⟨some ⟨true, 10, ⟨0, 0, 0, 1⟩⟩, 500⟩) 50 0).activeModel = some m ∧
      (PoseTaskState.mk true EPoseManipMode.Translate (some ⟨Mat4.identity⟩)
          (some ⟨some ⟨true, 10, ⟨0, 0, 0, 1⟩⟩, 500⟩) 50 0).viewport = some vp ∧
      vp.camera = some cam ∧
      (PoseTaskState.mk true EPoseManipMode.Translate
          (some (Model.setFromMatrix
            ((deltaTransform EPoseManipMode.Translate ⟨true, 10, ⟨0, 0, 0, 1⟩⟩
                500 50 0).mul Mat4.identity)))
          (some ⟨some ⟨true, 10, ⟨0, 0, 0, 1⟩⟩, 500⟩) 0 0).activeModel =
        some (Model.setFromMatrix
          ((deltaTransform EPoseManipMode.Translate cam vp.height 50 0).mul
            m.matrix)) := by
  refine C3_delta_premultiplied _ _ ?_
  rw [tick_apply _ ⟨Mat4.identity⟩ ⟨some ⟨true, 10, ⟨0, 0, 0, 1⟩⟩, 500⟩
        ⟨true, 10, ⟨0, 0, 0, 1⟩⟩ rfl (by simp) rfl (by norm_num) rfl rfl rfl]

/-- While the mode is not `Off` and a model is active, running the pointer
handler over a sequence of primary-button events adds exactly the sum of
`movement * speed` over its move events to the accumulated delta. -/
theorem runPointer_delta (s : PoseTaskState) (es : List PEvent)
    (hmode : s.mode ≠ EPoseManipMode.Off) (hm : s.activeModel ≠ none)
    (hb : ∀ e ∈ es, e.buttons = 1) :
    (runPointer s es).deltaX = s.deltaX + dragSumX es ∧
    (runPointer s es).deltaY = s.deltaY + dragSumY es := by
  induction es generalizing s with
  | nil => simp [runPointer, dragSumX, dragSumY]
  | cons e es ih =>
    have hb' : ∀ x ∈ es, x.buttons = 1 := fun x hx => hb x (List.mem_cons_of_mem _ hx)
    have hbe : e.buttons = 1 := hb e (List.mem_cons_self _ _)
    have hrun : runPointer s (e :: es) = runPointer ((onPointer s e).1) es := by
      simp [runPointer]
    rcases em (e.type = PEventType.move) with ht | ht
    · have h1 : (onPointer s e).1 = { s with
          deltaX := s.deltaX + e.movementX * speed e
          deltaY := s.deltaY + e.movementY * speed e
          viewport := some e.viewport } := by
        rw [onPointer_move s e hmode hm hbe ht]
      have ih' := ih { s with
          deltaX := s.deltaX + e.movementX * speed e
          deltaY := s.deltaY + e.movementY * speed e
          viewport := some e.viewport } hmode hm hb'
      rw [hrun, h1]
      constructor
      · rw [ih'.1]
        simp only [dragSumX, List.map_cons, List.sum_cons, ht, if_pos]
        ring
      · rw [ih'.2]
        simp only [dragSumY, List.map_cons, List.sum_cons, ht, if_pos]
        ring
    · have h1 : (onPointer s e).1 = s := by
        rw [onPointer_other s e (Or.inr ht)]
      have ih' := ih s hmode hm hb'
      rw [hrun, h1]
      constructor
      · rw [ih'.1]
        simp [dragSumX, ht]
      · rw [ih'.2]
        simp [dragSumY, ht]

/-- Claim C4, counterexample to the claim as stated: with the mode `Off`, a
primary-button drag accumulates nothing, so the accumulated delta does not
equal the sum of `movementX * speed` over the move events. -/
theorem C4_counterexample :
    (runPointer
        (PoseTaskState.mk true EPoseManipMode.Off (some ⟨Mat4.identity⟩) none 0 0)
        [PEvent.mk PEventType.move 1 false false 1 0
          ⟨some ⟨true, 10, ⟨0, 0, 0, 1⟩⟩, 500⟩ false]).deltaX ≠
      dragSumX
        [PEvent.mk PEventType.move 1 false false 1 0
          ⟨some ⟨true, 10, ⟨0, 0, 0, 1⟩⟩, 500⟩ false] := by
  rw [runPointer, List.foldl_cons, List.foldl_nil,
    onPointer_guard _ _ (Or.inl rfl)]
  simp [dragSumX, speed]

/-- Claim C4, amended: provided the mode is not `Off` and an active model
exists, for every drag sequence with the primary button held the accumulated
delta before the next tick equals the starting delta plus the sum over the
pointer-move events of `(movementX * speed, movementY * speed)`, with speed
0.1 under Ctrl, 10 under Shift and 1 otherwise; and each primary-button move
event processed under those guards records its source viewport and is marked
as consumed. -/
theorem C4_accumulation (s : PoseTaskState) (es : List PEvent)
    (hmode : s.mode ≠ EPoseManipMode.Off) (hm : s.activeModel ≠ none)
    (hb : ∀ e ∈ es, e.buttons = 1) :
    ((runPointer s es).deltaX = s.deltaX + dragSumX es ∧
     (runPointer s es).deltaY = s.deltaY + dragSumY es) ∧
    (∀ s₂ : PoseTaskState, ∀ e : PEvent,
      s₂.mode ≠ EPoseManipMode.Off → s₂.activeModel ≠ none →
      e.buttons = 1 → e.type = PEventType.move →
      (onPointer s₂ e).2 = true ∧ (onPointer s₂ e).1.viewport = some e.viewport) := by
  refine ⟨runPointer_delta s es hmode hm hb, ?_⟩
  intro s₂ e hmode₂ hm₂ hb₂ ht₂
  rw [onPointer_move s₂ e hmode₂ hm₂ hb₂ ht₂]
  exact ⟨rfl, rfl⟩

/-- Claim C4 (amended), concrete instance: one ordinary move of `(3, 4)` and
one shift-accelerated move of `(1, 2)` accumulate `(3 + 10, 4 + 20)`. -/
theorem C4_accumulation_witness :
    (runPointer
        (PoseTaskState.mk true EPoseManipMode.Rotate (some ⟨Mat4.identity⟩) none 0 0)
        [PEvent.mk PEventType.move 1 false false 3 4
            ⟨some ⟨true, 10, ⟨0, 0, 0, 1⟩⟩, 500⟩ false,
         PEvent.mk PEventType.move 1 false true 1 2
            ⟨some ⟨true, 10, ⟨0, 0, 0, 1⟩⟩, 500⟩ false]).deltaX = 13 ∧
    (runPointer
        (PoseTaskState.mk true EPoseManipMode.Rotate (some ⟨Mat4.identity⟩) none 0 0)
        [PEvent.mk PEventType.move 1 false false 3 4
            ⟨some ⟨true, 10, ⟨0, 0, 0, 1⟩⟩, 500⟩ false,
         PEvent.mk PEventType.move 1 false true 1 2
            ⟨some ⟨true, 10, ⟨0, 0, 0, 1⟩⟩, 500⟩ false]).deltaY = 24 := by
  have h := C4_accumulation
    (PoseTaskState.mk true EPoseManipMode.Rotate (some ⟨Mat4.identity⟩) none 0 0)
    [PEvent.mk PEventType.move 1 false false 3 4
        ⟨some ⟨true, 10, ⟨0, 0, 0, 1⟩⟩, 500⟩ false,
     PEvent.mk PEventType.move 1 false true 1 2
        ⟨some ⟨true, 10, ⟨0, 0, 0, 1⟩⟩, 500⟩ false]
    (by simp) (by simp) (by intro e he; fin_cases he <;> rfl)
  refine ⟨?_, ?_⟩
  · rw [h.1.1]
    norm_num [dragSumX, speed]
  · rw [h.1.2]
    norm_num [dragSumY, speed]

/-- Claim C5: over every tick, the model's transform is modified only when the
mode is not `Off`, a model is active, the accumulated delta is non-zero and
the originating camera exists and is orthographic; whenever the tick gets past
the delta guard the delta is drained (both components zeroed) before use, and
a tick that applied an edit is followed, absent new pointer moves, by a tick
that performs no transform. -/
theorem C5_guarded_atomic_drain (s s' : PoseTaskState) (b : Bool)
    (h : tick s = some (s', b)) :
    (s'.activeModel ≠ s.activeModel →
      s.mode ≠ EPoseManipMode.Off ∧ s.activeModel ≠ none ∧
      ¬ (s.deltaX = 0 ∧ s.deltaY = 0) ∧
      ∃ vp cam, s.viewport = some vp ∧ vp.camera = some cam ∧
        cam.isOrthographicCamera = true) ∧
    ((s'.deltaX = 0 ∧ s'.deltaY = 0) ∨ s' = s) ∧
    (b = true → tick s' = some (s', false)) := by
  unfold tick at h
  split at h
  next =>
    rw [Option.some.injEq, Prod.mk.injEq] at h
    obtain ⟨h1, h2⟩ := h
    refine ⟨?_, Or.inr h1.symm, ?_⟩
    · intro hne
      rw [← h1] at hne
      exact absurd rfl hne
    · intro hb
      rw [← h2] at hb
      cases hb
  next hactive =>
    split at h
    next =>
      rw [Option.some.injEq, Prod.mk.injEq] at h
      obtain ⟨h1, h2⟩ := h
      refine ⟨?_, Or.inr h1.symm, ?_⟩
      · intro hne
        rw [← h1] at hne
        exact absurd rfl hne
      · intro hb
        rw [← h2] at hb
        cases hb
    next hguard =>
      rw [not_or] at hguard
      obtain ⟨hoff, hsome⟩ := hguard
      split at h
      next hmodel =>
        rw [Option.some.injEq, Prod.mk.injEq] at h
        obtain ⟨h1, h2⟩ := h
        refine ⟨?_, Or.inr h1.symm, ?_⟩
        · intro hne
          rw [← h1] at hne
          exact absurd rfl hne
        · intro hb
          rw [← h2] at hb
          cases hb
      next model hmodel =>
        dsimp only at h
        split at h
        next hδ =>
          rw [Option.some.injEq, Prod.mk.injEq] at h
          obtain ⟨h1, h2⟩ := h
          refine ⟨?_, Or.inr h1.symm, ?_⟩
          · intro hne
            rw [← h1] at hne
            exact absurd rfl hne
          · intro hb
            rw [← h2] at hb
            cases hb
        next hδ =>
          split at h
          next hvp => cases h
          next vp hvp =>
            split at h
            next hcam =>
              rw [Option.some.injEq, Prod.mk.injEq] at h
              obtain ⟨h1, h2⟩ := h
              refine ⟨?_, Or.inl ?_, ?_⟩
              · intro hne
                rw [← h1] at hne
                exact absurd rfl hne
              · rw [← h1]
                exact ⟨rfl, rfl⟩
              · intro hb
                rw [← h2] at hb
                cases hb
            next cam hcam =>
              split at h
              next =>
                rw [Option.some.injEq, Prod.mk.injEq] at h
                obtain ⟨h1, h2⟩ := h
                refine ⟨?_, Or.inl ?_, ?_⟩
                · intro hne
                  rw [← h1] at hne
                  exact absurd rfl hne
                · rw [← h1]
                  exact ⟨rfl, rfl⟩
                · intro hb
                  rw [← h2] at hb
                  cases hb
              next horth =>
                rw [Option.some.injEq, Prod.mk.injEq] at h
                obtain ⟨h1, h2⟩ := h
                refine ⟨?_, Or.inl ?_, ?_⟩
                · intro _
                  refine ⟨hoff, ?_, hδ, vp, cam, hvp, hcam, ?_⟩
                  · rw [hmodel]
                    simp
                  · rw [not_not] at horth
                    exact horth
                · rw [← h1]
                  exact ⟨rfl, rfl⟩
                · intro _
                  apply tick_zero_delta
                  rw [← h1]
                  exact ⟨rfl, rfl⟩

/-- Claim C5, concrete instance: an applied translate-mode tick satisfies the
guard, drain and second-tick-no-op properties. -/
theorem C5_guarded_atomic_drain_witness :
    ((PoseTaskState.mk true EPoseManipMode.Translate
          (some (Model.setFromMatrix
            ((deltaTransform EPoseManipMode.Translate ⟨true, 10, ⟨0, 0, 0, 1⟩⟩
                500 50 0).mul Mat4.identity)))
          (some ⟨some ⟨true, 10, ⟨0, 0, 0, 1⟩⟩, 500⟩) 0 0).activeModel ≠
        (PoseTaskState.mk true EPoseManipMode.Translate (some ⟨Mat4.identity⟩)
          (some ⟨some ⟨true, 10, ⟨0, 0, 0, 1⟩⟩, 500⟩) 50 0).activeModel →
      (PoseTaskState.mk true EPoseManipMode.Translate (some ⟨Mat4.identity⟩)
          (some ⟨some ⟨true, 10, ⟨0, 0, 0, 1⟩⟩, 500⟩) 50 0).mode ≠
        EPoseManipMode.Off ∧
      (PoseTaskState.mk true EPoseManipMode.Translate (some ⟨Mat4.identity⟩)
          (some ⟨some ⟨true, 10, ⟨0, 0, 0, 1⟩⟩, 500⟩) 50 0).activeModel ≠ none ∧
      ¬ ((50 : ℝ) = 0 ∧ (0 : ℝ) = 0) ∧
      ∃ vp cam,
        (PoseTaskState.mk true EPoseManipMode.Translate (some ⟨Mat4.identity⟩)
            (some ⟨some ⟨true, 10, ⟨0, 0, 0, 1⟩⟩, 500⟩) 50 0).viewport = some vp ∧
        vp.camera = some cam ∧ cam.isOrthographicCamera = true) ∧
    (((0 : ℝ) = 0 ∧ (0 : ℝ) = 0) ∨
      PoseTaskState.mk true EPoseManipMode.Translate
          (some (Model.setFromMatrix
            ((deltaTransform EPoseManipMode.Translate ⟨true, 10, ⟨0, 0, 0, 1⟩⟩
                500 50 0).mul Mat4.identity)))
          (some ⟨some ⟨true, 10, ⟨0, 0, 0, 1⟩⟩, 500⟩) 0 0 =
        PoseTaskState.mk true EPoseManipMode.Translate (some ⟨Mat4.identity⟩)
          (some ⟨some ⟨true, 10, ⟨0, 0, 0, 1⟩⟩, 500⟩) 50 0) ∧
    (true = true →
      tick (PoseTaskState.mk true EPoseManipMode.Translate
          (some (Model.setFromMatrix
            ((deltaTransform EPoseManipMode.Translate ⟨true, 10, ⟨0, 0, 0, 1⟩⟩
                500 50 0).mul Mat4.identity)))
          (some ⟨some ⟨true, 10, ⟨0, 0, 0, 1⟩⟩, 500⟩) 0 0) =
        some (PoseTaskState.mk true EPoseManipMode.Translate
          (some (Model.setFromMatrix
            ((deltaTransform EPoseManipMode.Translate ⟨true, 10, ⟨0, 0, 0, 1⟩⟩
                500 50 0).mul Mat4.identity)))
          (some ⟨some ⟨true, 10, ⟨0, 0, 0, 1⟩⟩, 500⟩) 0 0, false)) := by
  exact C5_guarded_atomic_drain
    (PoseTaskState.mk true EPoseManipMode.Translate (some ⟨Mat4.identity⟩)
      (some ⟨some ⟨true, 10, ⟨0, 0, 0, 1⟩⟩, 500⟩) 50 0)
    (PoseTaskState.mk true EPoseManipMode.Translate
      (some (Model.setFromMatrix
        ((deltaTransform EPoseManipMode.Translate ⟨true, 10, ⟨0, 0, 0, 1⟩⟩
            500 50 0).mul Mat4.identity)))
      (some ⟨some ⟨true, 10, ⟨0, 0, 0, 1⟩⟩, 500⟩) 0 0)
    true
    (by rw [tick_apply _ ⟨Mat4.identity⟩ ⟨some ⟨true, 10, ⟨0, 0, 0, 1⟩⟩, 500⟩
          ⟨true, 10, ⟨0, 0, 0, 1⟩⟩ rfl (by simp) rfl (by norm_num) rfl rfl rfl])

/-- Claim C6: switching the active node to one without a model (or to null)
nulls the active model, and from any state without an active model every tick
is a no-op returning normally (no error), regardless of the mode, as is every
pointer event. -/
theorem C6_no_model_noop (s : PoseTaskState) (next : Option NVNode)
    (h : next = none ∨ ∃ n, next = some n ∧ n.model = none) :
    (onActiveNode s next).activeModel = none ∧
    ∀ s₂ : PoseTaskState, s₂.activeModel = none →
      tick s₂ = some (s₂, false) ∧ ∀ e : PEvent, (onPointer s₂ e).1 = s₂ := by
  constructor
  · unfold onActiveNode
    rcases h with h | ⟨n, hn, hnm⟩
    · simp [h]
    · simp [hn, hnm]
  · intro s₂ h₂
    refine ⟨tick_guard s₂ (Or.inr h₂), ?_⟩
    intro e
    rw [onPointer_guard s₂ e (Or.inr h₂)]

/-- Claim C6, concrete instance: a node carrying no model, followed by a
rotate-mode state with no active model. -/
theorem C6_no_model_noop_witness :
    (onActiveNode
        (PoseTaskState.mk true EPoseManipMode.Rotate (some ⟨Mat4.identity⟩)
          none 0 0) (some ⟨none⟩)).activeModel = none ∧
    ∀ s₂ : PoseTaskState, s₂.activeModel = none →
      tick s₂ = some (s₂, false) ∧ ∀ e : PEvent, (onPointer s₂ e).1 = s₂ :=
  C6_no_model_noop
    (PoseTaskState.mk true EPoseManipMode.Rotate (some ⟨Mat4.identity⟩) none 0 0)
    (some ⟨none⟩) (Or.inr ⟨⟨none⟩, rfl, rfl⟩)

/-- Claim C7: after `deactivateTask`, the pointer notifications are
unsubscribed and every `RenderQuadView` is back at the `Single` layout, so
delivering further pointer events changes neither the task state nor any
event's propagation flag; symmetrically `activateTask` subscribes and
switches every `RenderQuadView` to `Quad`. -/
theorem C7_deactivate_restores (sys : SystemState) :
    (deactivateTask sys).pointerSubscribed = false ∧
    (∀ v ∈ (deactivateTask sys).views, v.isQuadView = true →
      v.layout = EQuadViewLayout.Single) ∧
    (∀ (s : PoseTaskState) (e : PEvent),
      dispatchPointer (deactivateTask sys) s e = (s, e.stopPropagation)) ∧
    (activateTask sys).pointerSubscribed = true ∧
    (∀ v ∈ (activateTask sys).views, v.isQuadView = true →
      v.layout = EQuadViewLayout.Quad) := by
  refine ⟨rfl, ?_, ?_, rfl, ?_⟩
  · intro v hv hq
    unfold deactivateTask at hv
    simp only [List.mem_map] at hv
    obtain ⟨w, _, hveq⟩ := hv
    rcases em (w.isQuadView = true) with hwq | hwq
    · rw [← hveq]
      simp [hwq]
    · rw [← hveq] at hq
      simp [hwq] at hq
  · intro s e
    simp [dispatchPointer, deactivateTask]
  · intro v hv hq
    unfold activateTask at hv
    simp only [List.mem_map] at hv
    obtain ⟨w, _, hveq⟩ := hv
    rcases em (w.isQuadView = true) with hwq | hwq
    · rw [← hveq]
      simp [hwq]
    · rw [← hveq] at hq
      simp [hwq] at hq

/-- Claim C7, concrete instance: a system with one quad view and one plain
view. -/
theorem C7_deactivate_restores_witness :
    (deactivateTask ⟨true, true, [⟨true, EQuadViewLayout.Quad⟩,
        ⟨false, EQuadViewLayout.Quad⟩]⟩).pointerSubscribed = false ∧
    (∀ v ∈ (deactivateTask ⟨true, true, [⟨true, EQuadViewLayout.Quad⟩,
        ⟨false, EQuadViewLayout.Quad⟩]⟩).views, v.isQuadView = true →
      v.layout = EQuadViewLayout.Single) ∧
    (∀ (s : PoseTaskState) (e : PEvent),
      dispatchPointer (deactivateTask ⟨true, true, [⟨true, EQuadViewLayout.Quad⟩,
        ⟨false, EQuadViewLayout.Quad⟩]⟩) s e = (s, e.stopPropagation)) ∧
    (activateTask ⟨true, true, [⟨true, EQuadViewLayout.Quad⟩,
        ⟨false, EQuadViewLayout.Quad⟩]⟩).pointerSubscribed = true ∧
    (∀ v ∈ (activateTask ⟨true, true, [⟨true, EQuadViewLayout.Quad⟩,
        ⟨false, EQuadViewLayout.Quad⟩]⟩).views, v.isQuadView = true →
      v.layout = EQuadViewLayout.Quad) :=
  C7_deactivate_restores
    ⟨true, true, [⟨true, EQuadViewLayout.Quad⟩, ⟨false, EQuadViewLayout.Quad⟩]⟩

/-- Claim C8: on every resize, `onResize` reads the canvas's client
dimensions, resizes the view with exactly those two values while the view
exists (and touches no view otherwise), and the dispatched `sv-resize` detail
carries those same measured dimensions. -/
theorem C8_resize_dimensions (s : ContentLayerState) :
    (onResize s).2.width = s.canvas.clientWidth ∧
    (onResize s).2.height = s.canvas.clientHeight ∧
    (∀ v, s.view = some v →
      (onResize s).1.view =
        some (v.resize s.canvas.clientWidth s.canvas.clientHeight)) ∧
    (s.view = none → (onResize s).1.view = none) := by
  refine ⟨rfl, rfl, ?_, ?_⟩
  · intro v hv
    simp [onResize, hv]
  · intro hv
    simp [onResize, hv]

/-- Claim C8, concrete instance: an 800 by 600 canvas with a live view. -/
theorem C8_resize_dimensions_witness :
    (onResize ⟨⟨800, 600⟩, some ⟨1, 1⟩⟩).2.width = 800 ∧
    (onResize ⟨⟨800, 600⟩, some ⟨1, 1⟩⟩).2.height = 600 ∧
    (onResize ⟨⟨800, 600⟩, some ⟨1, 1⟩⟩).1.view =
      some ((SizedView.mk 1 1).resize 800 600) :=
  ⟨(C8_resize_dimensions ⟨⟨800, 600⟩, some ⟨1, 1⟩⟩).1,
   (C8_resize_dimensions ⟨⟨800, 600⟩, some ⟨1, 1⟩⟩).2.1,
   (C8_resize_dimensions ⟨⟨800, 600⟩, some ⟨1, 1⟩⟩).2.2.1 ⟨1, 1⟩ rfl⟩

/-- Claim C9: while the mode is `Off` or no model is active, `onPointer`
returns immediately: the state (delta, viewport) and the event's
stop-propagation flag are unchanged. -/
theorem C9_accumulation_gated (s : PoseTaskState) (e : PEvent)
    (h : s.mode = EPoseManipMode.Off ∨ s.activeModel = none) :
    onPointer s e = (s, e.stopPropagation) :=
  onPointer_guard s e h

/-- Claim C9, concrete instance: a primary-button move in `Off` mode leaves
everything unchanged and unconsumed. -/
theorem C9_accumulation_gated_witness :
    onPointer
      (PoseTaskState.mk true EPoseManipMode.Off (some ⟨Mat4.identity⟩) none 0 0)
      (PEvent.mk PEventType.move 1 false false 7 9
        ⟨some ⟨true, 10, ⟨0, 0, 0, 1⟩⟩, 500⟩ false) =
    (PoseTaskState.mk true EPoseManipMode.Off (some ⟨Mat4.identity⟩) none 0 0,
      false) :=
  C9_accumulation_gated
    (PoseTaskState.mk true EPoseManipMode.Off (some ⟨Mat4.identity⟩) none 0 0)
    (PEvent.mk PEventType.move 1 false false 7 9
      ⟨some ⟨true, 10, ⟨0, 0, 0, 1⟩⟩, 500⟩ false)
    (Or.inl rfl)

/-- Claim C10: on a tick with the task active, mode not `Off`, a model active
and a non-zero delta, but whose recorded viewport has no camera or a
non-orthographic camera, the delta is still reset to zero while the model's
transform is left unchanged. -/
theorem C10_drain_without_transform (s : PoseTaskState) (vp : Viewport)
    (hact : s.isActiveTask = true) (hmode : s.mode ≠ EPoseManipMode.Off)
    (hm : s.activeModel ≠ none) (hδ : ¬ (s.deltaX = 0 ∧ s.deltaY = 0))
    (hvp : s.viewport = some vp)
    (hcam : vp.camera = none ∨
      ∀ cam, vp.camera = some cam → cam.isOrthographicCamera = false) :
    tick s = some ({ s with deltaX := 0, deltaY := 0 }, false) :=
  tick_bad_camera s vp hact hmode hm hδ hvp hcam

/-- Claim C10, concrete instance: a rotate-mode drag against a perspective
camera is discarded. -/
theorem C10_drain_without_transform_witness :
    tick (PoseTaskState.mk true EPoseManipMode.Rotate (some ⟨Mat4.identity⟩)
        (some ⟨some ⟨false, 10, ⟨0, 0, 0, 1⟩⟩, 500⟩) 5 0) =
    some (PoseTaskState.mk true EPoseManipMode.Rotate (some ⟨Mat4.identity⟩)
        (some ⟨some ⟨false, 10, ⟨0, 0, 0, 1⟩⟩, 500⟩) 0 0, false) := by
  rw [C10_drain_without_transform _ ⟨some ⟨false, 10, ⟨0, 0, 0, 1⟩⟩, 500⟩
        rfl (by simp) (by simp) (by norm_num) rfl
        (Or.inr ?_)]
  intro cam hcam
  rw [Option.some.injEq] at hcam
  rw [← hcam]

end Voyager
